import Mathlib

/-!
Verification of the turtle-graphics module `src/turtlesoup.ts`.

The geometry functions (`calculateChordLength`, `computeDistance`,
`drawPolygon`, `drawSpiralingCircle`, `plotOptimalPath`,
`createGeometricArtwork`) are embedded from the source file.  The turtle
primitives themselves live in `./turtle` (not part of the sources at hand),
so they are modelled from the specification's description of the `Turtle`
capability interface (§3, §4.1 of the spec).  JavaScript numbers are
modelled as real numbers; `Math.round` is modelled by Mathlib's `round`
(round half towards positive infinity, matching `Math.round`).
-/

open Real

/-- Modelled from the spec: a `Point` is an immutable pair of real-valued
coordinates (the `Point` type of the missing `./turtle` module). -/
structure Point where
  x : ℝ
  y : ℝ

/-- Modelled from the spec: a `Color` is a string tag (the `Color` type of
the missing `./turtle` module). -/
abbrev Color := String

/-- Modelled from the spec: a recorded stroke `{start, end, color}` (the
segment record of the missing `./turtle` module); the source field `end` is a
Lean keyword, so it is called `endPoint` here. -/
structure Segment where
  start : Point
  endPoint : Point
  color : Color

/-- Modelled from the spec: the turtle state — position, heading in degrees,
pen color, and the append-only recorded path (the `SimpleTurtle` state of the
missing `./turtle` module). -/
structure Turtle where
  position : Point
  heading : ℝ
  penColor : Color
  path : List Segment

/-- Modelled from the spec: `forward(distance)` moves `distance` units along
the current heading (0° = +x axis, increasing counter-clockwise) and appends
one segment from the pre-call position to the post-call position, tagged with
the current pen color.  Implements the missing `Turtle.forward`. -/
noncomputable def forward (t : Turtle) (d : ℝ) : Turtle :=
  let rad : ℝ := t.heading * Real.pi / 180
  let np : Point := ⟨t.position.x + d * Real.cos rad, t.position.y + d * Real.sin rad⟩
  ⟨np, t.heading, t.penColor, t.path ++ [⟨t.position, np, t.penColor⟩]⟩

/-- Modelled from the spec: `turn(deltaDegrees)` adds `deltaDegrees` to the
heading (no wraparound applied), with no path side effect.  Implements the
missing `Turtle.turn`. -/
def turn (t : Turtle) (delta : ℝ) : Turtle :=
  ⟨t.position, t.heading + delta, t.penColor, t.path⟩

/-- Modelled from the spec: `color(c)` sets the active pen color for all
subsequently drawn segments.  Implements the missing `Turtle.color`. -/
def setColor (t : Turtle) (c : Color) : Turtle :=
  ⟨t.position, t.heading, c, t.path⟩

/-- Modelled from the spec: a freshly constructed turtle with default
origin, heading and color and an empty path (the `new SimpleTurtle()` of the
missing `./turtle` module); used only as a concrete sample state. -/
noncomputable def initialTurtle : Turtle :=
  ⟨⟨0, 0⟩, 0, "black", []⟩

/-- Rounding to 6 decimal digits exactly as the source writes it:
`Math.round(x * 1000000) / 1000000`. -/
noncomputable def round6 (x : ℝ) : ℝ :=
  ((round (x * 1000000) : ℤ) : ℝ) / 1000000

/-- From `calculateChordLength` (src/turtlesoup.ts:26-30): half the angle,
converted to radians, then `Math.round(2 * radius * Math.sin(radians) * 1e6) / 1e6`. -/
noncomputable def calculateChordLength (radius angleInDegrees : ℝ) : ℝ :=
  let halfAngle := angleInDegrees / 2
  let radians := halfAngle * Real.pi / 180
  round6 (2 * radius * Real.sin radians)

/-- From `computeDistance` (src/turtlesoup.ts:62-66): Euclidean distance
`Math.sqrt(xDiff * xDiff + yDiff * yDiff)`. -/
noncomputable def computeDistance (point1 point2 : Point) : ℝ :=
  let xDiff := point1.x - point2.x
  let yDiff := point1.y - point2.y
  Real.sqrt (xDiff * xDiff + yDiff * yDiff)

/-- One loop body of `drawPolygon` (src/turtlesoup.ts:13-16):
`turtle.forward(sideLength); turtle.turn(anglePerTurn)`. -/
noncomputable def polygonStep (sideLength anglePerTurn : ℝ) (t : Turtle) : Turtle :=
  turn (forward t sideLength) anglePerTurn

/-- From `drawPolygon` (src/turtlesoup.ts:11-17): `anglePerTurn = 360 / numSides`
computed once, then `numSides` iterations of forward-then-turn.  The source
loop `for (let i = 0; i < numSides; i++)` runs `numSides` times (zero times
when `numSides = 0`, the division result being unused in that case). -/
noncomputable def drawPolygon (t : Turtle) (sideLength : ℝ) (numSides : ℕ) : Turtle :=
  (polygonStep sideLength (360 / (numSides : ℝ)))^[numSides] t

/-- One loop body of `drawSpiralingCircle` (src/turtlesoup.ts:46-53):
forward by the chord length at the current radius, then turn by the base
angle. -/
noncomputable def spiralStep (baseAngle currentRadius : ℝ) (t : Turtle) : Turtle :=
  turn (forward t (calculateChordLength currentRadius baseAngle)) baseAngle

/-- The loop of `drawSpiralingCircle` (src/turtlesoup.ts:46-53), threading
the current radius, which is multiplied by 1.05 after every step. -/
noncomputable def spiralLoop (baseAngle : ℝ) : ℕ → ℝ → Turtle → Turtle
  | 0, _, t => t
  | n + 1, currentRadius, t =>
      spiralLoop baseAngle n (currentRadius * 1.05) (spiralStep baseAngle currentRadius t)

/-- From `drawSpiralingCircle` (src/turtlesoup.ts:38-54): `baseAngle =
360 / iterations`, `currentRadius` starts at `radius`, then `iterations`
steps of forward-by-chord-length and turn, growing the radius by 1.05 each
step.  The loop runs zero times when `iterations = 0`. -/
noncomputable def drawSpiralingCircle (t : Turtle) (radius : ℝ) (iterations : ℕ) : Turtle :=
  spiralLoop (360 / (iterations : ℝ)) iterations radius t

/-- Two-argument arctangent as used by `Math.atan2(y, x)`: the argument of
the complex number `x + y·i`, with range `(-π, π]`. -/
noncomputable def atan2 (y x : ℝ) : ℝ :=
  Complex.arg ⟨x, y⟩

/-- A navigation instruction emitted by `plotOptimalPath`
(src/turtlesoup.ts:91-92).  `turnDeg a` stands for the string
`Turn a degrees` and `moveUnits d` for `Move d units`; the real-valued
payload is kept at full precision (the source's `toFixed(2)` affects the
display text only). -/
inductive Instr where
  | turnDeg (angle : ℝ)
  | moveUnits (dist : ℝ)

/-- From `plotOptimalPath` (src/turtlesoup.ts:74-96): for each consecutive
pair of waypoints, compute the bearing `atan2(deltaY, deltaX) * 180 / π`,
turn by `bearing - heading` (no normalization), move forward by the
Euclidean distance, and push a Turn instruction then a Move instruction. -/
noncomputable def plotOptimalPath : Turtle → List Point → Turtle × List Instr
  | t, currentPoint :: nextPoint :: rest =>
      let deltaX := nextPoint.x - currentPoint.x
      let deltaY := nextPoint.y - currentPoint.y
      let travelAngle := atan2 deltaY deltaX * 180 / Real.pi
      let travelDistance := computeDistance currentPoint nextPoint
      let turnAngle := travelAngle - t.heading
      let t1 := forward (turn t turnAngle) travelDistance
      let res := plotOptimalPath t1 (nextPoint :: rest)
      (res.1, Instr.turnDeg turnAngle :: Instr.moveUnits travelDistance :: res.2)
  | t, _ => (t, [])

/-- The fixed palette of `createGeometricArtwork` (src/turtlesoup.ts:103-106). -/
def colorPalette : List Color :=
  ["teal", "coral", "indigo", "gold", "crimson", "navy", "olive", "maroon"]

/-- The palette entry selected at outer-loop step `complexity`
(src/turtlesoup.ts:110): `colorPalette[(complexity * 2) % colorPalette.length]`.
The index is always in range, so the `getD` default is never used. -/
def selectedColor (complexity : ℕ) : Color :=
  colorPalette.getD ((complexity * 2) % colorPalette.length) "black"

/-- The inner-loop body of `createGeometricArtwork` (src/turtlesoup.ts:112-115):
`drawPolygon(turtle, 50 / complexity, i); turtle.turn(360 / (i * complexity))`. -/
noncomputable def artworkPolyTurn (complexity : ℕ) (tu : Turtle) (i : ℕ) : Turtle :=
  turn (drawPolygon tu ((50 : ℝ) / (complexity : ℝ)) i) (360 / ((i : ℝ) * (complexity : ℝ)))

/-- One outer-loop iteration of `createGeometricArtwork`
(src/turtlesoup.ts:109-115): set the pen color, then for each `i` from 3 to 8
draw an `i`-sided polygon of side `50 / complexity` and turn by
`360 / (i * complexity)`. -/
noncomputable def artworkLayer (t : Turtle) (complexity : ℕ) : Turtle :=
  List.foldl (artworkPolyTurn complexity)
    (setColor t (selectedColor complexity)) [3, 4, 5, 6, 7, 8]

/-- From `createGeometricArtwork` (src/turtlesoup.ts:102-117): the outer loop
over `complexity = 1 .. 5`. -/
noncomputable def createGeometricArtwork (t : Turtle) : Turtle :=
  List.foldl artworkLayer t [1, 2, 3, 4, 5]

lemma turn_position (t : Turtle) (a : ℝ) : (turn t a).position = t.position := rfl

lemma turn_heading (t : Turtle) (a : ℝ) : (turn t a).heading = t.heading + a := rfl

lemma turn_penColor (t : Turtle) (a : ℝ) : (turn t a).penColor = t.penColor := rfl

lemma turn_path (t : Turtle) (a : ℝ) : (turn t a).path = t.path := rfl

lemma setColor_path (t : Turtle) (c : Color) : (setColor t c).path = t.path := rfl

lemma setColor_penColor (t : Turtle) (c : Color) : (setColor t c).penColor = c := rfl

lemma forward_heading (t : Turtle) (d : ℝ) : (forward t d).heading = t.heading := rfl

lemma forward_penColor (t : Turtle) (d : ℝ) : (forward t d).penColor = t.penColor := rfl

lemma forward_path (t : Turtle) (d : ℝ) :
    (forward t d).path = t.path ++ [⟨t.position, (forward t d).position, t.penColor⟩] := rfl

lemma computeDistance_shift (p : Point) (d θ : ℝ) :
    computeDistance p ⟨p.x + d * Real.cos θ, p.y + d * Real.sin θ⟩ = |d| := by
  unfold computeDistance
  dsimp only
  have h : (p.x - (p.x + d * Real.cos θ)) * (p.x - (p.x + d * Real.cos θ)) +
      (p.y - (p.y + d * Real.sin θ)) * (p.y - (p.y + d * Real.sin θ)) = d * d := by
    have hs := Real.sin_sq_add_cos_sq θ
    nlinarith [hs]
  rw [h]
  exact Real.sqrt_mul_self_eq_abs d

lemma forward_dist (t : Turtle) (d : ℝ) :
    computeDistance t.position (forward t d).position = |d| := by
  simpa [forward] using computeDistance_shift t.position d (t.heading * Real.pi / 180)

lemma polygonStep_path (s a : ℝ) (t : Turtle) :
    (polygonStep s a t).path = t.path ++ [⟨t.position, (forward t s).position, t.penColor⟩] := rfl

lemma polygonStep_heading (s a : ℝ) (t : Turtle) :
    (polygonStep s a t).heading = t.heading + a := rfl

lemma polygonStep_penColor (s a : ℝ) (t : Turtle) :
    (polygonStep s a t).penColor = t.penColor := rfl

lemma polygonStep_iterate (s a : ℝ) (n : ℕ) (t : Turtle) :
    ∃ l : List Segment,
      ((polygonStep s a)^[n] t).path = t.path ++ l ∧
      l.length = n ∧
      (∀ seg ∈ l, computeDistance seg.start seg.endPoint = |s|) ∧
      (∀ seg ∈ l, seg.color = t.penColor) ∧
      ((polygonStep s a)^[n] t).heading = t.heading + n * a ∧
      ((polygonStep s a)^[n] t).penColor = t.penColor := by
  induction n generalizing t with
  | zero => exact ⟨[], by simp⟩
  | succ n ih =>
    rw [Function.iterate_succ_apply]
    obtain ⟨l, hpath, hlen, hdist, hcol, hhead, hpen⟩ := ih (polygonStep s a t)
    refine ⟨⟨t.position, (forward t s).position, t.penColor⟩ :: l, ?_, ?_, ?_, ?_, ?_, ?_⟩
    · rw [hpath, polygonStep_path]; simp
    · simp [hlen]
    · intro seg hseg
      rcases List.mem_cons.mp hseg with h | h
      · subst h; exact forward_dist t s
      · exact hdist seg h
    · intro seg hseg
      rcases List.mem_cons.mp hseg with h | h
      · subst h; rfl
      · rw [hcol seg h, polygonStep_penColor]
    · rw [hhead, polygonStep_heading]; push_cast; ring
    · rw [hpen, polygonStep_penColor]

lemma spiralStep_path (a r : ℝ) (t : Turtle) :
    (spiralStep a r t).path =
      t.path ++ [⟨t.position, (forward t (calculateChordLength r a)).position, t.penColor⟩] := rfl

lemma spiralStep_heading (a r : ℝ) (t : Turtle) :
    (spiralStep a r t).heading = t.heading + a := rfl

lemma spiralLoop_foldl (a : ℝ) (n : ℕ) (r : ℝ) (t : Turtle) :
    spiralLoop a n r t =
      List.foldl (fun tt k => spiralStep a (r * 1.05 ^ k) tt) t (List.range n) := by
  induction n generalizing r t with
  | zero => rfl
  | succ n ih =>
    rw [spiralLoop, ih, List.range_succ_eq_map]
    simp only [List.foldl_cons, List.foldl_map]
    have h1 : r * 1.05 ^ 0 = r := by norm_num
    rw [h1]
    have hfun : (fun (tt : Turtle) (k : ℕ) => spiralStep a (r * 1.05 * 1.05 ^ k) tt)
        = fun (tt : Turtle) (k : ℕ) => spiralStep a (r * 1.05 ^ (k + 1)) tt := by
      funext tt k
      have h : r * 1.05 * 1.05 ^ k = r * 1.05 ^ (k + 1) := by rw [pow_succ]; ring
      rw [h]
    rw [hfun]

lemma spiralLoop_spec (a : ℝ) (n : ℕ) (r : ℝ) (t : Turtle) :
    ∃ l : List Segment,
      (spiralLoop a n r t).path = t.path ++ l ∧
      l.length = n ∧
      (spiralLoop a n r t).heading = t.heading + n * a := by
  induction n generalizing r t with
  | zero => exact ⟨[], by simp [spiralLoop]⟩
  | succ n ih =>
    rw [spiralLoop]
    obtain ⟨l, hpath, hlen, hhead⟩ := ih (r * 1.05) (spiralStep a r t)
    refine ⟨⟨t.position, (forward t (calculateChordLength r a)).position, t.penColor⟩ :: l,
      ?_, ?_, ?_⟩
    · rw [hpath, spiralStep_path]; simp
    · simp [hlen]
    · rw [hhead, spiralStep_heading]; push_cast; ring

lemma artworkPolyTurn_spec (c : ℕ) (tu : Turtle) (i : ℕ) :
    ∃ l : List Segment,
      (artworkPolyTurn c tu i).path = tu.path ++ l ∧
      (∀ seg ∈ l, seg.color = tu.penColor) ∧
      (artworkPolyTurn c tu i).penColor = tu.penColor := by
  obtain ⟨l, hp, _, _, hc, _, hpen⟩ :=
    polygonStep_iterate ((50 : ℝ) / (c : ℝ)) (360 / (i : ℝ)) i tu
  refine ⟨l, ?_, hc, ?_⟩
  · rw [artworkPolyTurn, turn_path, drawPolygon]; exact hp
  · rw [artworkPolyTurn, turn_penColor, drawPolygon]; exact hpen

lemma foldl_artworkPolyTurn_spec (c : ℕ) (sides : List ℕ) (t : Turtle) :
    ∃ l : List Segment,
      (List.foldl (artworkPolyTurn c) t sides).path = t.path ++ l ∧
      (∀ seg ∈ l, seg.color = t.penColor) ∧
      (List.foldl (artworkPolyTurn c) t sides).penColor = t.penColor := by
  induction sides generalizing t with
  | nil => exact ⟨[], by simp⟩
  | cons i rest ih =>
    simp only [List.foldl_cons]
    obtain ⟨l1, hp1, hc1, hpen1⟩ := artworkPolyTurn_spec c t i
    obtain ⟨l2, hp2, hc2, hpen2⟩ := ih (artworkPolyTurn c t i)
    refine ⟨l1 ++ l2, ?_, ?_, ?_⟩
    · rw [hp2, hp1, List.append_assoc]
    · intro seg hseg
      rcases List.mem_append.mp hseg with h | h
      · exact hc1 seg h
      · rw [hc2 seg h, hpen1]
    · rw [hpen2, hpen1]

lemma artworkLayer_spec (t : Turtle) (c : ℕ) :
    ∃ l : List Segment,
      (artworkLayer t c).path = t.path ++ l ∧
      (∀ seg ∈ l, seg.color = selectedColor c) := by
  obtain ⟨l, hp, hc, _⟩ :=
    foldl_artworkPolyTurn_spec c [3, 4, 5, 6, 7, 8] (setColor t (selectedColor c))
  refine ⟨l, ?_, ?_⟩
  · rw [artworkLayer, hp, setColor_path]
  · intro seg hseg
    rw [hc seg hseg, setColor_penColor]

lemma foldl_artworkLayer_spec (cs : List ℕ) (t : Turtle) :
    ∃ l : List Segment,
      (List.foldl artworkLayer t cs).path = t.path ++ l ∧
      ∀ seg ∈ l, ∃ c ∈ cs, seg.color = selectedColor c := by
  induction cs generalizing t with
  | nil => exact ⟨[], by simp⟩
  | cons c rest ih =>
    simp only [List.foldl_cons]
    obtain ⟨l1, hp1, hc1⟩ := artworkLayer_spec t c
    obtain ⟨l2, hp2, hc2⟩ := ih (artworkLayer t c)
    refine ⟨l1 ++ l2, ?_, ?_⟩
    · rw [hp2, hp1, List.append_assoc]
    · intro seg hseg
      rcases List.mem_append.mp hseg with h | h
      · exact ⟨c, List.mem_cons_self c rest, hc1 seg h⟩
      · obtain ⟨c2, hc2mem, hcol⟩ := hc2 seg h
        exact ⟨c2, List.mem_cons_of_mem c hc2mem, hcol⟩

lemma chord_180 (r : ℝ) : calculateChordLength r 180 = round6 (2 * r) := by
  unfold calculateChordLength
  dsimp only
  have h : (180 : ℝ) / 2 * Real.pi / 180 = Real.pi / 2 := by ring
  rw [h, Real.sin_pi_div_two, mul_one]

/-- Claim C1, counterexample: at radius `r = 1 / 10^7` and angle 180 the code
returns `round(0.2) / 10^6 = 0`, not the diameter `2r = 2 / 10^7`; the claimed
equation `calculateChordLength(r, 180) == 2r` fails for radii whose diameter is
not a multiple of `10^-6`. -/
theorem calculateChordLength_180_counterexample :
    calculateChordLength (1 / 10 ^ 7) 180 ≠ 2 * (1 / 10 ^ 7) := by
  rw [chord_180]
  unfold round6
  have h : (2 : ℝ) * (1 / 10 ^ 7) * 1000000 = 1 / 5 := by norm_num
  rw [h]
  have hr : round ((1 : ℝ) / 5) = 0 := by
    rw [round_eq]
    norm_num
  rw [hr]
  norm_num

/-- Claim C1 (amended): for every radius `r` and angle `a`,
`calculateChordLength(r, a)` equals `2 * r * sin(radians(a / 2))` rounded to 6
decimal digits (multiply by 1e6, round, divide by 1e6), and
`calculateChordLength(r, 0) = 0`; the diameter identity
`calculateChordLength(r, 180) = 2r` holds whenever `2r` is an exact multiple of
`10^-6` (i.e. `r * 2000000` is an integer) — the rounding step refutes it for
other radii, see the counterexample. -/
theorem calculateChordLength_spec (r a : ℝ) :
    calculateChordLength r a = round6 (2 * r * Real.sin (a / 2 * Real.pi / 180)) ∧
    calculateChordLength r 0 = 0 ∧
    (∀ m : ℤ, r * 2000000 = (m : ℝ) → calculateChordLength r 180 = 2 * r) := by
  refine ⟨rfl, ?_, ?_⟩
  · unfold calculateChordLength round6
    norm_num
  · intro m hm
    rw [chord_180]
    unfold round6
    have h2 : 2 * r * 1000000 = (m : ℝ) := by rw [← hm]; ring
    rw [h2, round_intCast]
    have hr : r = (m : ℝ) / 2000000 := by
      field_simp at hm ⊢
      linarith [hm]
    rw [hr]
    ring

/-- Witness for claim C1: at `r = 3` the hypothesis holds with `m = 6000000`,
and the theorem yields the diameter identity `calculateChordLength 3 180 = 6`. -/
theorem calculateChordLength_spec_witness : calculateChordLength 3 180 = 2 * 3 :=
  (calculateChordLength_spec 3 0).2.2 6000000 (by norm_num)

/-- Claim C10: the chord length is symmetric between an angle and its conjugate
to a full turn: `calculateChordLength(r, a) = calculateChordLength(r, 360 - a)`,
because `sin((360 - a)/2 in radians) = sin(π - a/2 in radians) = sin(a/2 in
radians)`. -/
theorem calculateChordLength_conjugate (r a : ℝ) :
    calculateChordLength r a = calculateChordLength r (360 - a) := by
  unfold calculateChordLength
  dsimp only
  have h : (360 - a) / 2 * Real.pi / 180 = Real.pi - a / 2 * Real.pi / 180 := by ring
  rw [h, Real.sin_pi_sub]

lemma computeDistance_complex (a b : Point) :
    computeDistance a b = dist (Complex.mk a.x a.y) (Complex.mk b.x b.y) := by
  rw [Complex.dist_eq, Complex.abs_apply, Complex.normSq_apply]
  unfold computeDistance
  dsimp only
  congr 1

/-- Claim C8: `computeDistance` is a metric on points — it vanishes on the
diagonal, it is symmetric, and it satisfies the triangle inequality. -/
theorem computeDistance_metric (p a b c : Point) :
    computeDistance p p = 0 ∧
    computeDistance a b = computeDistance b a ∧
    computeDistance a c ≤ computeDistance a b + computeDistance b c := by
  refine ⟨?_, ?_, ?_⟩
  · unfold computeDistance
    simp
  · unfold computeDistance
    dsimp only
    congr 1
    ring
  · rw [computeDistance_complex a c, computeDistance_complex a b,
      computeDistance_complex b c]
    exact dist_triangle _ _ _

/-- Claim C4, counterexample: `drawPolygon(t, 10, 0)` and
`drawSpiralingCircle(t, 5, 0)` do not fail with a reported error — the source
has no input check, and `for (let i = 0; i < 0; i++)` runs zero times, so both
calls return normally with the turtle completely unchanged (in particular no
error is reported and nothing is appended to the path). -/
theorem zeroCount_counterexample :
    drawPolygon initialTurtle 10 0 = initialTurtle ∧
    drawSpiralingCircle initialTurtle 5 0 = initialTurtle :=
  ⟨rfl, rfl⟩

/-- Claim C4 (amended): `drawPolygon` with `numSides = 0` and
`drawSpiralingCircle` with `iterations = 0` execute zero loop iterations and
return the turtle unchanged: no error is reported, but no segment (in
particular no NaN/Infinity segment) is recorded either — the division
`360 / 0` is computed but its result is never used. -/
theorem zeroCount_noop (t : Turtle) (s r : ℝ) :
    drawPolygon t s 0 = t ∧ drawSpiralingCircle t r 0 = t :=
  ⟨rfl, rfl⟩

lemma plotOptimalPath_nil (t : Turtle) : plotOptimalPath t [] = (t, []) := rfl

lemma plotOptimalPath_single (t : Turtle) (p : Point) : plotOptimalPath t [p] = (t, []) := rfl

/-- Claim C5: `plotOptimalPath` on an empty or one-element waypoint list
returns an empty instruction list and the very same turtle — position, heading,
pen color and recorded path all unchanged. -/
theorem plotOptimalPath_short (t : Turtle) (p : Point) :
    plotOptimalPath t [] = (t, []) ∧ plotOptimalPath t [p] = (t, []) :=
  ⟨rfl, rfl⟩

lemma drawPolygon_spec_aux (t : Turtle) (s : ℝ) (n : ℕ) :
    ∃ l : List Segment,
      (drawPolygon t s n).path = t.path ++ l ∧
      l.length = n ∧
      (∀ seg ∈ l, computeDistance seg.start seg.endPoint = |s|) ∧
      (∀ seg ∈ l, seg.color = t.penColor) ∧
      (drawPolygon t s n).heading = t.heading + n * (360 / (n : ℝ)) ∧
      (drawPolygon t s n).penColor = t.penColor :=
  polygonStep_iterate s (360 / (n : ℝ)) n t

/-- Claim C2, counterexample: with the negative side length `s = -1` and
`numSides = 3`, `drawPolygon` appends three segments whose Euclidean length is
`|-1| = 1`, not `-1`; the claim's "each segment of length s", quantified over
every side length, fails for negative `s`. -/
theorem drawPolygon_negative_side_counterexample :
    ¬ (∀ seg ∈ (drawPolygon initialTurtle (-1) 3).path,
        computeDistance seg.start seg.endPoint = -1) := by
  intro h
  obtain ⟨l, hpath, hlen, hdist, -, -, -⟩ := drawPolygon_spec_aux initialTurtle (-1) 3
  have hl : l ≠ [] := by
    intro hnil
    rw [hnil] at hlen
    simp at hlen
  obtain ⟨seg, hseg⟩ := List.exists_mem_of_ne_nil l hl
  have hmem : seg ∈ (drawPolygon initialTurtle (-1) 3).path := by
    rw [hpath]
    exact List.mem_append_right _ hseg
  have h1 := h seg hmem
  have h2 := hdist seg hseg
  rw [h1] at h2
  norm_num at h2

/-- Claim C2 (amended): for every turtle, every nonnegative side length `s`
and every `numSides = n ≥ 3`, `drawPolygon` is the `n`-fold repetition of
`forward(s)` followed by `turn(360/n)`; it appends exactly `n` segments, each
of Euclidean length `s` (for negative `s` the length is `|s|`, see the
counterexample), and the final heading equals the initial heading modulo 360
(it advances by exactly 360 degrees). -/
theorem drawPolygon_spec (t : Turtle) (s : ℝ) (n : ℕ) (hn : 3 ≤ n) (hs : 0 ≤ s) :
    drawPolygon t s n = (fun tu => turn (forward tu s) (360 / (n : ℝ)))^[n] t ∧
    ∃ l : List Segment,
      (drawPolygon t s n).path = t.path ++ l ∧
      l.length = n ∧
      (∀ seg ∈ l, computeDistance seg.start seg.endPoint = s) ∧
      ∃ k : ℤ, (drawPolygon t s n).heading = t.heading + 360 * (k : ℝ) := by
  refine ⟨rfl, ?_⟩
  obtain ⟨l, hp, hlen, hdist, -, hhead, -⟩ := drawPolygon_spec_aux t s n
  refine ⟨l, hp, hlen, ?_, ⟨1, ?_⟩⟩
  · intro seg hseg
    rw [hdist seg hseg, abs_of_nonneg hs]
  · rw [hhead]
    have hne : ((n : ℝ)) ≠ 0 := by
      have : (0 : ℝ) < (n : ℝ) := by exact_mod_cast lt_of_lt_of_le (by norm_num) hn
      linarith
    have h360 : (n : ℝ) * (360 / (n : ℝ)) = 360 := by field_simp
    rw [h360]
    push_cast
    ring

/-- Witness for claim C2: instantiated at a fresh turtle with `s = 2` and
`n = 3`; the hypotheses `3 ≤ 3` and `0 ≤ 2` hold. -/
theorem drawPolygon_spec_witness :
    ∃ l : List Segment,
      (drawPolygon initialTurtle 2 3).path = initialTurtle.path ++ l ∧
      l.length = 3 ∧
      (∀ seg ∈ l, computeDistance seg.start seg.endPoint = 2) := by
  obtain ⟨-, l, hp, hlen, hdist, -⟩ :=
    drawPolygon_spec initialTurtle 2 3 (by norm_num) (by norm_num)
  exact ⟨l, hp, hlen, hdist⟩

/-- Claim C6: for every turtle, radius `r` and `iterations = n ≥ 1`,
`drawSpiralingCircle` performs exactly `n` steps where step `k`
(`k = 0, 1, ...`) moves forward by `calculateChordLength(r * 1.05^k, 360/n)`
and then turns by `360/n` (the fold over `k ∈ range n`); it appends exactly
`n` segments, and the net heading change is exactly 360 degrees, so the final
heading equals the initial heading modulo 360. -/
theorem drawSpiralingCircle_spec (t : Turtle) (r : ℝ) (n : ℕ) (hn : 1 ≤ n) :
    drawSpiralingCircle t r n =
      List.foldl
        (fun tt k =>
          turn (forward tt (calculateChordLength (r * 1.05 ^ k) (360 / (n : ℝ))))
            (360 / (n : ℝ)))
        t (List.range n) ∧
    (∃ l : List Segment,
      (drawSpiralingCircle t r n).path = t.path ++ l ∧ l.length = n) ∧
    (drawSpiralingCircle t r n).heading = t.heading + 360 ∧
    ∃ k : ℤ, (drawSpiralingCircle t r n).heading = t.heading + 360 * (k : ℝ) := by
  have hne : ((n : ℝ)) ≠ 0 := by
    have : (0 : ℝ) < (n : ℝ) := by exact_mod_cast lt_of_lt_of_le (by norm_num) hn
    linarith
  have hhead360 : (drawSpiralingCircle t r n).heading = t.heading + 360 := by
    obtain ⟨-, -, -, hh⟩ := spiralLoop_spec (360 / (n : ℝ)) n r t
    rw [drawSpiralingCircle, hh]
    have h360 : (n : ℝ) * (360 / (n : ℝ)) = 360 := by field_simp
    rw [h360]
  refine ⟨spiralLoop_foldl (360 / (n : ℝ)) n r t, ?_, hhead360, ⟨1, ?_⟩⟩
  · obtain ⟨l, hp, hlen, -⟩ := spiralLoop_spec (360 / (n : ℝ)) n r t
    exact ⟨l, hp, hlen⟩
  · rw [hhead360]
    norm_num

/-- Witness for claim C6: instantiated at a fresh turtle with radius 5 and
4 iterations; the hypothesis `1 ≤ 4` holds, and the theorem yields the net
heading change of 360 degrees. -/
theorem drawSpiralingCircle_spec_witness :
    (drawSpiralingCircle initialTurtle 5 4).heading = initialTurtle.heading + 360 :=
  (drawSpiralingCircle_spec initialTurtle 5 4 (by norm_num)).2.2.1

lemma plotOptimalPath_cons (tu : Turtle) (p q : Point) (rest : List Point) :
    plotOptimalPath tu (p :: q :: rest) =
      ((plotOptimalPath
          (forward (turn tu (atan2 (q.y - p.y) (q.x - p.x) * 180 / Real.pi - tu.heading))
            (computeDistance p q)) (q :: rest)).1,
        Instr.turnDeg (atan2 (q.y - p.y) (q.x - p.x) * 180 / Real.pi - tu.heading) ::
        Instr.moveUnits (computeDistance p q) ::
        (plotOptimalPath
          (forward (turn tu (atan2 (q.y - p.y) (q.x - p.x) * 180 / Real.pi - tu.heading))
            (computeDistance p q)) (q :: rest)).2) := rfl

lemma plotOptimalPath_length (pts : List Point) : ∀ t : Turtle,
    (plotOptimalPath t pts).2.length = 2 * (pts.length - 1) := by
  induction pts with
  | nil => intro t; rfl
  | cons p rest ih =>
    intro t
    cases rest with
    | nil => rfl
    | cons q rest2 =>
      rw [plotOptimalPath_cons]
      simp only [List.length_cons]
      rw [ih]
      simp only [List.length_cons]
      omega

lemma computeDistance_origin_34 : computeDistance ⟨0, 0⟩ ⟨3, 4⟩ = 5 := by
  unfold computeDistance
  dsimp only
  rw [show ((0 : ℝ) - 3) * ((0 : ℝ) - 3) + ((0 : ℝ) - 4) * ((0 : ℝ) - 4) = 5 ^ 2 by norm_num]
  exact Real.sqrt_sq (by norm_num)

/-- Claim C3: `plotOptimalPath` returns exactly `2 * (n - 1)` instructions for
`n ≥ 2` waypoints; each consecutive pair is processed by turning by exactly
`atan2(deltaY, deltaX) * 180/π - heading` (no normalization into `[-180, 180]`)
and then moving forward by the Euclidean distance; and for `[(0,0), (3,4)]` the
travel distance is 5 and the turn angle is `atan2(4, 3) * 180/π` minus the
initial heading. -/
theorem plotOptimalPath_spec (t : Turtle) (pts : List Point) (_h : 2 ≤ pts.length) :
    (plotOptimalPath t pts).2.length = 2 * (pts.length - 1) ∧
    (∀ (tu : Turtle) (p q : Point) (rest : List Point),
      plotOptimalPath tu (p :: q :: rest) =
        ((plotOptimalPath
            (forward (turn tu (atan2 (q.y - p.y) (q.x - p.x) * 180 / Real.pi - tu.heading))
              (computeDistance p q)) (q :: rest)).1,
          Instr.turnDeg (atan2 (q.y - p.y) (q.x - p.x) * 180 / Real.pi - tu.heading) ::
          Instr.moveUnits (computeDistance p q) ::
          (plotOptimalPath
            (forward (turn tu (atan2 (q.y - p.y) (q.x - p.x) * 180 / Real.pi - tu.heading))
              (computeDistance p q)) (q :: rest)).2)) ∧
    (plotOptimalPath t [⟨0, 0⟩, ⟨3, 4⟩]).2 =
      [Instr.turnDeg (atan2 4 3 * 180 / Real.pi - t.heading), Instr.moveUnits 5] := by
  refine ⟨plotOptimalPath_length pts t, fun tu p q rest => plotOptimalPath_cons tu p q rest, ?_⟩
  rw [plotOptimalPath_cons t ⟨0, 0⟩ ⟨3, 4⟩ []]
  dsimp only
  rw [computeDistance_origin_34, plotOptimalPath_single]
  norm_num

/-- Witness for claim C3: instantiated at a fresh turtle and the two-point
list `[(0,0), (3,4)]`, whose length 2 satisfies the hypothesis. -/
theorem plotOptimalPath_spec_witness :
    (plotOptimalPath initialTurtle [⟨0, 0⟩, ⟨3, 4⟩]).2.length =
      2 * (([(⟨0, 0⟩ : Point), ⟨3, 4⟩] : List Point).length - 1) :=
  (plotOptimalPath_spec initialTurtle [⟨0, 0⟩, ⟨3, 4⟩] (by simp)).1

/-- Modelled from the spec: a second freshly constructed turtle with the same
default origin, heading and color and an empty path, used to state the
determinism witness over two distinct fresh turtle values. -/
noncomputable def freshTurtle : Turtle :=
  ⟨⟨0, 0⟩, 0, "black", []⟩

/-- Claim C7: `createGeometricArtwork` is deterministic — run on two fresh
turtles with identical initial state (same position, heading and pen color,
both with an empty recorded path) it produces identical recorded paths,
element by element. -/
theorem createGeometricArtwork_deterministic (t1 t2 : Turtle)
    (hpos : t1.position = t2.position) (hhead : t1.heading = t2.heading)
    (hcol : t1.penColor = t2.penColor) (hp1 : t1.path = []) (hp2 : t2.path = []) :
    (createGeometricArtwork t1).path = (createGeometricArtwork t2).path := by
  have ht : t1 = t2 := by
    cases t1
    cases t2
    simp_all
  rw [ht]

/-- Witness for claim C7: the two fresh turtles `initialTurtle` and
`freshTurtle` agree on all components, so the theorem applies. -/
theorem createGeometricArtwork_deterministic_witness :
    (createGeometricArtwork initialTurtle).path = (createGeometricArtwork freshTurtle).path :=
  createGeometricArtwork_deterministic initialTurtle freshTurtle rfl rfl rfl rfl rfl

/-- Claim C9: the palette index chosen at outer-loop step
`complexity ∈ {1,...,5}` is `(complexity * 2) % 8`, taking the values
`2, 4, 6, 0, 2`, so the pen colors set in order are indigo, crimson, olive,
teal, indigo; consequently every segment drawn by `createGeometricArtwork`
carries one of those four colors, and the palette entries coral, gold, navy
and maroon are never used. -/
theorem createGeometricArtwork_colors (t : Turtle) :
    List.map (fun c => (c * 2) % colorPalette.length) [1, 2, 3, 4, 5] = [2, 4, 6, 0, 2] ∧
    List.map selectedColor [1, 2, 3, 4, 5] = ["indigo", "crimson", "olive", "teal", "indigo"] ∧
    ∃ l : List Segment,
      (createGeometricArtwork t).path = t.path ++ l ∧
      ∀ seg ∈ l,
        seg.color ∈ (["teal", "indigo", "crimson", "olive"] : List Color) ∧
        seg.color ∉ (["coral", "gold", "navy", "maroon"] : List Color) := by
  refine ⟨by decide, by decide, ?_⟩
  obtain ⟨l, hp, hc⟩ := foldl_artworkLayer_spec [1, 2, 3, 4, 5] t
  refine ⟨l, hp, ?_⟩
  intro seg hseg
  obtain ⟨c, hcmem, hcol⟩ := hc seg hseg
  fin_cases hcmem <;> rw [hcol] <;> exact ⟨by decide, by decide⟩

/-- Witness for claim C9: instantiated at a fresh turtle; the selected colors
in order are indigo, crimson, olive, teal, indigo. -/
theorem createGeometricArtwork_colors_witness :
    List.map selectedColor [1, 2, 3, 4, 5] = ["indigo", "crimson", "olive", "teal", "indigo"] :=
  (createGeometricArtwork_colors initialTurtle).2.1
